import Mathlib

/-!
Shallow embedding of the MQTT 3.1.1 protocol engine of the NetworkSwitch
repository (class MqttClient, files mqttclient.cpp and mqttclient.h).

Modelling conventions:
- QByteArray values are lists of naturals; wherever the source converts a
  char to quint8 (every read of a buffer byte), the model reduces modulo 256.
- quint32 / quint16 arithmetic is Nat arithmetic with explicit reductions
  modulo 2^32 / 2^16 at the points where the source types truncate.
- The mutable int offset reference of decodeRemainingLength becomes an
  explicit returned cursor; the mutable m_packetId becomes explicit state.
- Qt signal emissions become an ordered list of Event values; a registered
  std::function handler is identified by a Nat tag, and invoking it is the
  Event.handlerInvoked event.
- The do-while loops of encodeRemainingLength / decodeRemainingLength are
  bounded by the source itself (a quint32 has at most 5 base-128 digits; the
  decoder returns once the multiplier exceeds 128^3, i.e. after at most 4
  reads), so they are written with a structural fuel argument large enough
  that the fuel-exhausted branch is unreachable from the entry points.
-/

namespace NetworkSwitch

abbrev Bytes := List Nat

/-- One iteration of the decoder loop of MqttClient::decodeRemainingLength:
check exhaustion, read data.at(offset++) as quint8, accumulate the low 7 bits
times the multiplier, multiply the multiplier by 128, return 0 once the
multiplier exceeds 128*128*128, and continue while the continuation bit is
set.  Returns (value, cursor); the source communicates the cursor through the
int reference parameter.  Fuel 4 is sufficient: the fourth read always makes
the multiplier exceed 128^3 and return. -/
def decodeRLAux : Nat → Bytes → Nat → Nat → Nat → Nat × Nat
  | 0, _, offset, _, _ => (0, offset)
  | fuel + 1, data, offset, multiplier, value =>
    if offset < data.length then
      let encodedByte := data.getD offset 0 % 256
      let value2 := value + encodedByte % 128 * multiplier
      let multiplier2 := multiplier * 128
      if 128 * 128 * 128 < multiplier2 then (0, offset + 1)
      else if 128 ≤ encodedByte then decodeRLAux fuel data (offset + 1) multiplier2 value2
      else (value2, offset + 1)
    else (0, offset)

/-- MqttClient::decodeRemainingLength(data, offset): returns the decoded
value (0 on failure) together with the final value of the offset reference. -/
def decodeRemainingLength (data : Bytes) (offset : Nat) : Nat × Nat :=
  decodeRLAux 4 data offset 1 0

/-- One iteration of the encoder loop of MqttClient::encodeRemainingLength:
emit length % 128, divide by 128, set the continuation bit (| 0x80, i.e.
+128 on a 7-bit value) when more digits follow.  A quint32 needs at most 5
base-128 digits, so fuel 5 makes the empty branch unreachable. -/
def encodeRLAux : Nat → Nat → Bytes
  | 0, _ => []
  | fuel + 1, len =>
    let byte := len % 128
    let rest := len / 128
    if 0 < rest then (byte + 128) :: encodeRLAux fuel rest
    else [byte]

/-- The bytes MqttClient::encodeRemainingLength(buffer, length) appends to
the buffer; the quint32 parameter truncates the input modulo 2^32. -/
def encodeRemainingLength (len : Nat) : Bytes :=
  encodeRLAux 5 (len % 4294967296)

/-- Unfolding lemma for one decoder iteration, stated for a positive fuel
so it can be rewritten at the literal fuels 4, 3, 2, 1. -/
theorem decodeRLAux_succ (fuel : Nat) (data : Bytes) (offset multiplier value : Nat) :
    decodeRLAux (fuel + 1) data offset multiplier value =
      if offset < data.length then
        let encodedByte := data.getD offset 0 % 256
        let value2 := value + encodedByte % 128 * multiplier
        let multiplier2 := multiplier * 128
        if 128 * 128 * 128 < multiplier2 then (0, offset + 1)
        else if 128 ≤ encodedByte then decodeRLAux fuel data (offset + 1) multiplier2 value2
        else (value2, offset + 1)
      else (0, offset) := rfl

/-- Claim C1: the variable-length-integer guard of decodeRemainingLength is
off by one.  The multiplier is multiplied before being compared against
128^3, so the check fires after the fourth byte has been consumed even when
that byte terminates the sequence; every 4-byte encoding is rejected.  At
the failing input n = 2097152 (= 128^3, the smallest value the encoder emits
4 bytes for, well inside the claimed range up to 268435455), the encoder
produces 0x80 0x80 0x80 0x01 and the decoder returns the failure value 0
instead of 2097152, refuting the round-trip.  The three concrete encodings
the claim lists are reproduced correctly by the encoder. -/
theorem decode_encode_roundTrip_fails_at_2097152 :
    encodeRemainingLength 2097152 = [0x80, 0x80, 0x80, 0x01] ∧
    decodeRemainingLength (encodeRemainingLength 2097152) 0 = (0, 4) ∧
    (decodeRemainingLength (encodeRemainingLength 2097152) 0).1 ≠ 2097152 ∧
    2097152 ≤ 268435455 ∧
    encodeRemainingLength 321 = [0xC1, 0x02] ∧
    encodeRemainingLength 127 = [0x7F] ∧
    encodeRemainingLength 128 = [0x80, 0x01] := by
  decide

/-- Claim C3, counterexamples.  First: on the buffer [0x80] with cursor 0
the decoder fails (the continuation bit is set and the buffer is exhausted)
yet the cursor comes back as 1, not 0 - the failure does advance the cursor.
Second: on 0xFF 0xFF 0xFF 0x7F the fourth byte has the continuation bit
clear, so no 5th digit byte would be required and the value 268435455 does
not exceed the maximum, yet the decoder still fails (returning value 0 with
the cursor advanced by 4), because the overlong guard fires after the fourth
read. -/
theorem decodeRemainingLength_cursor_counterexample :
    decodeRemainingLength [0x80] 0 = (0, 1) ∧
    decodeRemainingLength [0xFF, 0xFF, 0xFF, 0x7F] 0 = (0, 4) ∧
    127 + 127 * 128 + 127 * 16384 + 127 * 2097152 = 268435455 := by
  decide

/-- Claim C3 (amended): complete cursor/value characterisation of
decodeRemainingLength.  With cursor c on buffer data:
exhaustion before any read returns (0, c); a terminating byte (high bit
clear) at position c, c+1 or c+2 succeeds, returning the accumulated base-128
value with the cursor advanced exactly past the consumed bytes; consuming a
fourth byte (three continuation bytes first) always fails with the cursor
advanced by 4; running out of buffered bytes while the continuation bit is
set fails with the cursor left at the end of the buffer, i.e. advanced past
every consumed byte rather than restored. -/
theorem decodeRemainingLength_cursor_spec (data : Bytes) (c : Nat) :
    (data.length ≤ c → decodeRemainingLength data c = (0, c)) ∧
    (c < data.length → data.getD c 0 % 256 < 128 →
      decodeRemainingLength data c = (data.getD c 0 % 128, c + 1)) ∧
    (c + 1 < data.length → 128 ≤ data.getD c 0 % 256 →
      data.getD (c + 1) 0 % 256 < 128 →
      decodeRemainingLength data c =
        (data.getD c 0 % 128 + data.getD (c + 1) 0 % 128 * 128, c + 2)) ∧
    (c + 2 < data.length → 128 ≤ data.getD c 0 % 256 →
      128 ≤ data.getD (c + 1) 0 % 256 → data.getD (c + 2) 0 % 256 < 128 →
      decodeRemainingLength data c =
        (data.getD c 0 % 128 + data.getD (c + 1) 0 % 128 * 128 +
          data.getD (c + 2) 0 % 128 * 16384, c + 3)) ∧
    (c + 3 < data.length → 128 ≤ data.getD c 0 % 256 →
      128 ≤ data.getD (c + 1) 0 % 256 → 128 ≤ data.getD (c + 2) 0 % 256 →
      decodeRemainingLength data c = (0, c + 4)) ∧
    (data.length = c + 1 → 128 ≤ data.getD c 0 % 256 →
      decodeRemainingLength data c = (0, c + 1)) ∧
    (data.length = c + 2 → 128 ≤ data.getD c 0 % 256 →
      128 ≤ data.getD (c + 1) 0 % 256 →
      decodeRemainingLength data c = (0, c + 2)) ∧
    (data.length = c + 3 → 128 ≤ data.getD c 0 % 256 →
      128 ≤ data.getD (c + 1) 0 % 256 → 128 ≤ data.getD (c + 2) 0 % 256 →
      decodeRemainingLength data c = (0, c + 3)) := by
  unfold decodeRemainingLength
  rw [show (4 : Nat) = 3 + 1 from rfl, decodeRLAux_succ]
  refine ⟨?_, ?_, ?_, ?_, ?_, ?_, ?_, ?_⟩
  · intro h
    rw [if_neg (Nat.not_lt.mpr h)]
  · intro hc hb
    simp only [List.getD_eq_getElem?_getD] at hb ⊢
    rw [if_pos hc]
    norm_num [Nat.not_le.mpr hb]
    try omega
  · intro hc hb0 hb1
    have hc0 : c < data.length := by omega
    simp only [List.getD_eq_getElem?_getD] at hb0 hb1 ⊢
    rw [if_pos hc0]
    norm_num [hb0]
    rw [show (3 : Nat) = 2 + 1 from rfl, decodeRLAux_succ]
    simp only [List.getD_eq_getElem?_getD]
    rw [if_pos hc]
    norm_num [Nat.not_le.mpr hb1]
    try omega
  · intro hc hb0 hb1 hb2
    have hc0 : c < data.length := by omega
    have hc1 : c + 1 < data.length := by omega
    simp only [List.getD_eq_getElem?_getD] at hb0 hb1 hb2 ⊢
    rw [if_pos hc0]
    norm_num [hb0]
    rw [show (3 : Nat) = 2 + 1 from rfl, decodeRLAux_succ]
    simp only [List.getD_eq_getElem?_getD]
    rw [if_pos hc1]
    norm_num [hb1]
    rw [show (2 : Nat) = 1 + 1 from rfl, decodeRLAux_succ]
    simp only [List.getD_eq_getElem?_getD]
    rw [if_pos hc]
    norm_num [Nat.not_le.mpr hb2]
    try omega
  · intro hc hb0 hb1 hb2
    have hc0 : c < data.length := by omega
    have hc1 : c + 1 < data.length := by omega
    have hc2 : c + 2 < data.length := by omega
    simp only [List.getD_eq_getElem?_getD] at hb0 hb1 hb2 ⊢
    rw [if_pos hc0]
    norm_num [hb0]
    rw [show (3 : Nat) = 2 + 1 from rfl, decodeRLAux_succ]
    simp only [List.getD_eq_getElem?_getD]
    rw [if_pos hc1]
    norm_num [hb1]
    rw [show (2 : Nat) = 1 + 1 from rfl, decodeRLAux_succ]
    simp only [List.getD_eq_getElem?_getD]
    rw [if_pos hc2]
    norm_num [hb2]
    rw [show (1 : Nat) = 0 + 1 from rfl, decodeRLAux_succ]
    simp only [List.getD_eq_getElem?_getD]
    rw [if_pos hc]
    norm_num
    try omega
  · intro hlen hb0
    have hc0 : c < data.length := by omega
    simp only [List.getD_eq_getElem?_getD] at hb0 ⊢
    rw [if_pos hc0]
    norm_num [hb0]
    rw [show (3 : Nat) = 2 + 1 from rfl, decodeRLAux_succ]
    rw [if_neg (Nat.not_lt.mpr (by omega : data.length ≤ c + 1))]
  · intro hlen hb0 hb1
    have hc0 : c < data.length := by omega
    have hc1 : c + 1 < data.length := by omega
    simp only [List.getD_eq_getElem?_getD] at hb0 hb1 ⊢
    rw [if_pos hc0]
    norm_num [hb0]
    rw [show (3 : Nat) = 2 + 1 from rfl, decodeRLAux_succ]
    simp only [List.getD_eq_getElem?_getD]
    rw [if_pos hc1]
    norm_num [hb1]
    rw [show (2 : Nat) = 1 + 1 from rfl, decodeRLAux_succ]
    rw [if_neg (Nat.not_lt.mpr (by omega : data.length ≤ c + 2))]
  · intro hlen hb0 hb1 hb2
    have hc0 : c < data.length := by omega
    have hc1 : c + 1 < data.length := by omega
    have hc2 : c + 2 < data.length := by omega
    simp only [List.getD_eq_getElem?_getD] at hb0 hb1 hb2 ⊢
    rw [if_pos hc0]
    norm_num [hb0]
    rw [show (3 : Nat) = 2 + 1 from rfl, decodeRLAux_succ]
    simp only [List.getD_eq_getElem?_getD]
    rw [if_pos hc1]
    norm_num [hb1]
    rw [show (2 : Nat) = 1 + 1 from rfl, decodeRLAux_succ]
    simp only [List.getD_eq_getElem?_getD]
    rw [if_pos hc2]
    norm_num [hb2]
    rw [show (1 : Nat) = 0 + 1 from rfl, decodeRLAux_succ]
    rw [if_neg (Nat.not_lt.mpr (by omega : data.length ≤ c + 3))]

/-- Witness for the amended claim C3 at concrete inputs: a successful
two-byte decode of 0xC1 0x02 gives 321 with the cursor moved from 0 to 2,
and the failing decode of the lone continuation byte 0x80 leaves the cursor
at the end of the buffer. -/
theorem decodeRemainingLength_cursor_spec_witness :
    decodeRemainingLength [0xC1, 0x02] 0 = (321, 2) ∧
    decodeRemainingLength [0x80] 0 = (0, 1) := by
  have h1 := decodeRemainingLength_cursor_spec [0xC1, 0x02] 0
  have h2 := decodeRemainingLength_cursor_spec [0x80] 0
  constructor
  · have := h1.2.2.1 (by decide) (by decide) (by decide)
    simpa using this
  · have := h2.2.2.2.2.2.1 (by decide) (by decide)
    simpa using this

/-- Qt signal emissions and handler invocations of MqttClient, in emission
order.  Topics and messages are byte sequences (the QString topic is its
UTF-8 byte sequence); a registered std::function handler is identified by a
Nat tag and calling it is recorded as handlerInvoked. -/
inductive Event where
  | connectedEv : Event
  | disconnectedEv : Event
  | messageReceived (topic : Bytes) (message : Bytes) : Event
  | publishedEv (topic : Bytes) : Event
  | subscribedEv (topic : Bytes) : Event
  | unsubscribedEv (topic : Bytes) : Event
  | errorEv (msg : String) : Event
  | handlerInvoked (handler : Nat) (topic : Bytes) (message : Bytes) : Event
  deriving DecidableEq

/-- The member state of MqttClient (mqttclient.h): the connection flag, the
running quint16 packet id, the QMap from topic to handler (an association
list, at most one entry per topic), the receive buffer, the keep-alive
interval in seconds, and the keep-alive QTimer (whether it is running and
the interval it was last started with). -/
structure MqttState where
  m_connected : Bool
  m_packetId : Nat
  m_topicHandlers : List (Bytes × Nat)
  m_buffer : Bytes
  m_keepAliveInterval : Nat
  timerActive : Bool
  timerIntervalMs : Nat
  deriving DecidableEq

/-- The state established by the MqttClient constructor: not connected,
m_packetId = 1, keep-alive interval 30 seconds, no handlers, empty buffer,
timer not running. -/
def mkMqttClient : MqttState :=
  { m_connected := false
    m_packetId := 1
    m_topicHandlers := []
    m_buffer := []
    m_keepAliveInterval := 30
    timerActive := false
    timerIntervalMs := 0 }

/-- QMap::contains. -/
def mapContains (m : List (Bytes × Nat)) (k : Bytes) : Bool :=
  m.any (fun p => p.1 == k)

/-- QMap lookup (operator[] on an existing key). -/
def mapLookup (m : List (Bytes × Nat)) (k : Bytes) : Option Nat :=
  (m.find? (fun p => p.1 == k)).map (fun p => p.2)

/-- QMap::operator[] assignment: replace the entry if the key is present,
append it otherwise. -/
def mapInsert (m : List (Bytes × Nat)) (k : Bytes) (v : Nat) : List (Bytes × Nat) :=
  if mapContains m k then m.map (fun p => if p.1 == k then (k, v) else p)
  else m ++ [(k, v)]

/-- QMap::remove. -/
def mapRemove (m : List (Bytes × Nat)) (k : Bytes) : List (Bytes × Nat) :=
  m.filter (fun p => !(p.1 == k))

/-- MqttClient::createPublishPacket: fixed header 0x30 | retain | (qos << 1)
truncated to quint8, variable header = 2-byte big-endian topic length plus
the UTF-8 topic bytes, then the raw payload; the remaining length covers
variable header plus payload. -/
def createPublishPacket (topic payload : Bytes) (qos : Nat) (retain : Bool) : Bytes :=
  let fixedHeader := (0x30 ||| (if retain then 1 else 0) ||| (qos % 256) <<< 1) % 256
  let variableHeader := (topic.length >>> 8) % 256 :: topic.length % 256 :: topic
  let remainingLength := variableHeader.length + payload.length
  fixedHeader :: (encodeRemainingLength remainingLength ++ variableHeader ++ payload)

/-- MqttClient::createSubscribePacket: fixed header 0x82, variable header =
2-byte big-endian m_packetId (which is then incremented, wrapping as a
quint16), payload = 2-byte topic length, topic bytes, one requested-QoS
byte.  Returns the packet and the state with the incremented packet id. -/
def createSubscribePacket (st : MqttState) (topic : Bytes) (qos : Nat) :
    Bytes × MqttState :=
  let variableHeader := [(st.m_packetId >>> 8) % 256, st.m_packetId % 256]
  let st2 := { st with m_packetId := (st.m_packetId + 1) % 65536 }
  let payload := (topic.length >>> 8) % 256 :: topic.length % 256 :: (topic ++ [qos % 256])
  let remainingLength := variableHeader.length + payload.length
  (0x82 :: (encodeRemainingLength remainingLength ++ variableHeader ++ payload), st2)

/-- MqttClient::createUnsubscribePacket: fixed header 0xA2, variable header =
2-byte big-endian m_packetId (then incremented, wrapping as a quint16),
payload = 2-byte topic length plus the topic bytes. -/
def createUnsubscribePacket (st : MqttState) (topic : Bytes) : Bytes × MqttState :=
  let variableHeader := [(st.m_packetId >>> 8) % 256, st.m_packetId % 256]
  let st2 := { st with m_packetId := (st.m_packetId + 1) % 65536 }
  let payload := (topic.length >>> 8) % 256 :: topic.length % 256 :: topic
  let remainingLength := variableHeader.length + payload.length
  (0xA2 :: (encodeRemainingLength remainingLength ++ variableHeader ++ payload), st2)

/-- MqttClient::createDisconnectPacket. -/
def createDisconnectPacket : Bytes := [0xE0, 0x00]

/-- MqttClient::createPingRequestPacket. -/
def createPingRequestPacket : Bytes := [0xC0, 0x00]

/-- MqttClient::publish.  Returns the new state, the bytes handed to
m_socket->write, and the emitted events.  The transport write is modelled as
succeeding (a failed write only swaps the published event for an error
event and is outside the engine). -/
def publish (st : MqttState) (topic message : Bytes) (qos : Nat) (retain : Bool) :
    MqttState × Bytes × List Event :=
  if !st.m_connected then (st, [], [Event.errorEv "Nicht verbunden!"])
  else
    let packet := createPublishPacket topic message qos retain
    (st, packet, [Event.publishedEv topic])

/-- MqttClient::subscribe(topic, qos) - the overload without a handler. -/
def subscribe (st : MqttState) (topic : Bytes) (qos : Nat) :
    MqttState × Bytes × List Event :=
  if !st.m_connected then (st, [], [Event.errorEv "Nicht verbunden!"])
  else
    let (packet, st2) := createSubscribePacket st topic qos
    (st2, packet, [Event.subscribedEv topic])

/-- MqttClient::subscribe(topic, handler, qos) - registers the handler in
m_topicHandlers before sending the SUBSCRIBE packet (only when connected:
the not-connected check comes first). -/
def subscribeWithHandler (st : MqttState) (topic : Bytes) (handler : Nat) (qos : Nat) :
    MqttState × Bytes × List Event :=
  if !st.m_connected then (st, [], [Event.errorEv "Nicht verbunden!"])
  else
    let st1 := { st with m_topicHandlers := mapInsert st.m_topicHandlers topic handler }
    let (packet, st2) := createSubscribePacket st1 topic qos
    (st2, packet, [Event.subscribedEv topic])

/-- MqttClient::unsubscribe: when connected, removes the handler if present
and sends an UNSUBSCRIBE packet. -/
def unsubscribe (st : MqttState) (topic : Bytes) : MqttState × Bytes × List Event :=
  if !st.m_connected then (st, [], [Event.errorEv "Nicht verbunden!"])
  else
    let st1 :=
      if mapContains st.m_topicHandlers topic then
        { st with m_topicHandlers := mapRemove st.m_topicHandlers topic }
      else st
    let (packet, st2) := createUnsubscribePacket st1 topic
    (st2, packet, [Event.unsubscribedEv topic])

/-- MqttClient::registerHandler. -/
def registerHandler (st : MqttState) (topic : Bytes) (handler : Nat) : MqttState :=
  { st with m_topicHandlers := mapInsert st.m_topicHandlers topic handler }

/-- MqttClient::unregisterHandler. -/
def unregisterHandler (st : MqttState) (topic : Bytes) : MqttState :=
  if mapContains st.m_topicHandlers topic then
    { st with m_topicHandlers := mapRemove st.m_topicHandlers topic }
  else st

/-- MqttClient::hasHandler. -/
def hasHandler (st : MqttState) (topic : Bytes) : Bool :=
  mapContains st.m_topicHandlers topic

/-- MqttClient::handlePublishMessage: invoke the registered handler for the
topic, or emit messageReceived when none is registered. -/
def handlePublishMessage (st : MqttState) (topic message : Bytes) : List Event :=
  match mapLookup st.m_topicHandlers topic with
  | some h => [Event.handlerInvoked h topic message]
  | none => [Event.messageReceived topic message]

/-- The per-packet dispatch of MqttClient::onReadyRead, applied to a frame
already removed from the buffer: CONNACK (0x2_) drives the connection flag,
keep-alive timer and connected/error events; PUBLISH (0x3_) parses the
2-byte topic length, topic and payload (skipping the frame silently when
the declared lengths do not fit) and dispatches; SUBACK, UNSUBACK and
PINGRESP only log.  In the CONNACK else branch the source reads
packetData.at(1) without a length guard - an out-of-bounds access when the
body is shorter than 2 bytes; the model reads a default 0 there and the
bounds question is captured by connackElseReadInBounds. -/
def handleFrame (st : MqttState) (packetType : Nat) (packetData : Bytes) :
    MqttState × List Event :=
  if packetType &&& 0xF0 = 0x20 then
    if 2 ≤ packetData.length ∧ packetData.getD 1 0 % 256 = 0 then
      ({ st with
          m_connected := true
          timerActive := true
          timerIntervalMs := st.m_keepAliveInterval * 1000 * 2 / 3 },
        [Event.connectedEv])
    else
      let returnCode := packetData.getD 1 0 % 256
      (st, [Event.errorEv
        ("Verbindung vom Broker abgelehnt (Code: " ++ toString returnCode ++ ")")])
  else if packetType &&& 0xF0 = 0x30 then
    if packetData.length < 2 then (st, [])
    else
      let topicLength := (packetData.getD 0 0 % 256) * 256 + packetData.getD 1 0 % 256
      if packetData.length < 2 + topicLength then (st, [])
      else
        let topic := (packetData.drop 2).take topicLength
        let message := packetData.drop (2 + topicLength)
        (st, handlePublishMessage st topic message)
  else (st, [])

/-- Whether the body reads performed by handleFrame stay within the frame
body, following the source control flow: the CONNACK success condition
short-circuits its at(1) access behind the length check, but the CONNACK
else branch reads at(1) unconditionally; every PUBLISH access is guarded. -/
def handleFrameReadsInBounds (packetType : Nat) (packetData : Bytes) : Bool :=
  if packetType &&& 0xF0 = 0x20 then
    if 2 ≤ packetData.length ∧ packetData.getD 1 0 % 256 = 0 then true
    else decide (1 < packetData.length)
  else true

/-- One attempt of the onReadyRead loop to take a frame off the front of a
buffer: needs at least 2 bytes, reads the type byte at index 0, decodes the
remaining length starting at offset 1, and succeeds - yielding the type, the
body bytes mid(offset, remainingLength) and the rest of the buffer after
remove(0, offset + remainingLength) - exactly when
buffer.length >= offset + remainingLength. -/
def extractFirstFrame (buffer : Bytes) : Option (Nat × Bytes × Bytes) :=
  if buffer.length < 2 then none
  else
    let packetType := buffer.getD 0 0 % 256
    let decoded := decodeRemainingLength buffer 1
    let remainingLength := decoded.1
    let offset := decoded.2
    if buffer.length < offset + remainingLength then none
    else some (packetType, (buffer.drop offset).take remainingLength,
      buffer.drop (offset + remainingLength))

/-- The while loop of MqttClient::onReadyRead: repeatedly extract a frame
from the front of m_buffer and dispatch it through handleFrame, stopping
when the buffer is empty or no frame can be extracted.  Every extracted
frame removes at least 2 bytes, so a fuel equal to the buffer length is
sufficient and the fuel-exhausted branch is unreachable. -/
def processBufferAux : Nat → MqttState → List Event → MqttState × List Event
  | 0, st, evs => (st, evs)
  | fuel + 1, st, evs =>
    if st.m_buffer.isEmpty then (st, evs)
    else
      match extractFirstFrame st.m_buffer with
      | none => (st, evs)
      | some (packetType, packetData, rest) =>
        let (st2, evs2) := handleFrame { st with m_buffer := rest } packetType packetData
        processBufferAux fuel st2 (evs ++ evs2)

/-- MqttClient::onReadyRead: append the newly received bytes to m_buffer and
process all complete packets. -/
def onReadyRead (st : MqttState) (incoming : Bytes) : MqttState × List Event :=
  let st1 := { st with m_buffer := st.m_buffer ++ incoming }
  processBufferAux st1.m_buffer.length st1 []

/-- MqttClient::onDisconnected: clear the connection flag, stop the timer,
clear all handlers, emit disconnected. -/
def onDisconnected (st : MqttState) : MqttState × List Event :=
  ({ st with m_connected := false, timerActive := false, m_topicHandlers := [] },
    [Event.disconnectedEv])

/-- MqttClient::onSocketError: clear the connection flag, stop the timer,
emit the transport error string.  The handler map is not touched. -/
def onSocketError (st : MqttState) (errorMsg : String) : MqttState × List Event :=
  ({ st with m_connected := false, timerActive := false }, [Event.errorEv errorMsg])

/-- MqttClient::disconnect: stop the timer, clear all handlers, and - only
when the transport reports itself connected - write a DISCONNECT packet.
The bounded waits on the socket are transport-side and carry no engine
state. -/
def disconnect (st : MqttState) (socketConnected : Bool) : MqttState × Bytes :=
  let st1 := { st with timerActive := false, m_topicHandlers := [] }
  if socketConnected then (st1, createDisconnectPacket) else (st1, [])

/-- Looking a key up after mapRemove never finds it. -/
theorem mapLookup_mapRemove (m : List (Bytes × Nat)) (k : Bytes) :
    mapLookup (mapRemove m k) k = none := by
  induction m with
  | nil => rfl
  | cons p rest ih =>
    by_cases hp : p.1 == k
    · have hdrop : mapRemove (p :: rest) k = mapRemove rest k := by
        simp [mapRemove, List.filter_cons, hp]
      rw [hdrop]
      exact ih
    · have hkeep : mapRemove (p :: rest) k = p :: mapRemove rest k := by
        simp [mapRemove, List.filter_cons, hp]
      rw [hkeep]
      simp only [mapLookup, List.find?_cons, hp]
      exact ih

/-- A key that mapContains does not report is not found by mapLookup. -/
theorem mapLookup_eq_none_of_not_contains (m : List (Bytes × Nat)) (k : Bytes)
    (h : mapContains m k = false) : mapLookup m k = none := by
  induction m with
  | nil => rfl
  | cons p rest ih =>
    simp only [mapContains, List.any_cons, Bool.or_eq_false_iff] at h
    simp only [mapLookup, List.find?_cons, h.1]
    exact ih h.2

/-- Claim C2: the extraction loop of onReadyRead does not stop when
decodeRemainingLength cannot complete.  On the buffered bytes 0x30 0x80 the
length decode fails (the continuation bit of 0x80 is set and the buffer is
exhausted), but because the failure value 0 is indistinguishable from a
decoded length of 0 and the cursor has already advanced past the consumed
bytes, the completeness check buffer.length < offset + remainingLength
compares 2 < 2 and passes: a frame with packet type 0x30 and an empty body
is extracted and both bytes are removed from the buffer, where the claim
says nothing may be removed. -/
theorem frameExtraction_consumes_partial_frame :
    decodeRemainingLength [0x30, 0x80] 1 = (0, 2) ∧
    extractFirstFrame [0x30, 0x80] = some (0x30, [], []) ∧
    (onReadyRead mkMqttClient [0x30, 0x80]).1.m_buffer = [] := by
  decide

/-- Claim C4, counterexample: in the Connected state,
publish("a/b", [1,2,3], 0, false) hands the transport the bytes
0x30 0x08 0x00 0x03 a / b 0x01 0x02 0x03 - the remaining-length byte is
0x08 (2 topic-length bytes + 3 topic bytes + 3 payload bytes), not the 0x07
the claim lists. -/
theorem publish_connected_bytes_counterexample :
    (publish { mkMqttClient with m_connected := true }
        [0x61, 0x2F, 0x62] [0x01, 0x02, 0x03] 0 false).2.1 =
      [0x30, 0x08, 0x00, 0x03, 0x61, 0x2F, 0x62, 0x01, 0x02, 0x03] ∧
    ([0x30, 0x08, 0x00, 0x03, 0x61, 0x2F, 0x62, 0x01, 0x02, 0x03] : Bytes) ≠
      [0x30, 0x07, 0x00, 0x03, 0x61, 0x2F, 0x62, 0x01, 0x02, 0x03] := by
  decide

/-- Claim C4 (amended): while Connected, publish("a/b", [1,2,3], 0, false)
hands the transport exactly 0x30 0x08 0x00 0x03 'a' '/' 'b' 0x01 0x02 0x03
(remaining length 0x08) and emits the published event. -/
theorem publish_connected_bytes (st : MqttState) (h : st.m_connected = true) :
    (publish st [0x61, 0x2F, 0x62] [0x01, 0x02, 0x03] 0 false).2.1 =
      [0x30, 0x08, 0x00, 0x03, 0x61, 0x2F, 0x62, 0x01, 0x02, 0x03] ∧
    (publish st [0x61, 0x2F, 0x62] [0x01, 0x02, 0x03] 0 false).2.2 =
      [Event.publishedEv [0x61, 0x2F, 0x62]] := by
  simp only [publish, h, Bool.not_true, Bool.false_eq_true, if_false]
  constructor
  · decide
  · trivial

/-- Witness for the amended claim C4 at the concrete connected state. -/
theorem publish_connected_bytes_witness :
    (publish { mkMqttClient with m_connected := true }
        [0x61, 0x2F, 0x62] [0x01, 0x02, 0x03] 0 false).2.1 =
      [0x30, 0x08, 0x00, 0x03, 0x61, 0x2F, 0x62, 0x01, 0x02, 0x03] :=
  (publish_connected_bytes { mkMqttClient with m_connected := true } rfl).1

/-- Claim C5, counterexample: a socket error at a connected client with a
handler registered for topic "t" ([0x74]) leaves that handler registered -
hasHandler is still true afterwards - although the claim says all
subscription handler entries are cleared. -/
theorem onSocketError_keeps_handlers_counterexample :
    hasHandler (onSocketError { mkMqttClient with
        m_connected := true, m_topicHandlers := [([0x74], 7)] }
      "Connection reset by peer").1 [0x74] = true ∧
    (onSocketError { mkMqttClient with
        m_connected := true, m_topicHandlers := [([0x74], 7)] }
      "Connection reset by peer").1.m_connected = false := by
  decide

/-- Claim C5 (amended): on a transport-level (socket) error the engine
raises an error event carrying the transport message, transitions to
Disconnected (isConnected() false) and stops the keep-alive timer, but
leaves the handler table unchanged; handler entries are cleared only when
the transport disconnect itself is handled (onDisconnected) or by an
explicit disconnect() call. -/
theorem onSocketError_spec (st : MqttState) (msg : String) :
    (onSocketError st msg).1.m_connected = false ∧
    (onSocketError st msg).1.timerActive = false ∧
    (onSocketError st msg).1.m_topicHandlers = st.m_topicHandlers ∧
    (onSocketError st msg).2 = [Event.errorEv msg] ∧
    (onDisconnected st).1.m_topicHandlers = [] ∧
    (disconnect st false).1.m_topicHandlers = [] := by
  simp [onSocketError, onDisconnected, disconnect]

/-- Claim C6: a CONNACK frame (type nibble 0x2) with return-code byte 0
makes the engine Connected, emits the connected event exactly once, and
starts the keep-alive timer at 2/3 of the configured keep-alive interval -
20000 ms for the default 30 s interval; a CONNACK with a non-zero
return-code byte leaves the engine Disconnected and emits a single error
event embedding the numeric return code, whose text for return code 1
contains the character 1. -/
theorem connack_drives_connection (st : MqttState) (packetType : Nat) (body : Bytes)
    (htype : packetType &&& 0xF0 = 0x20) (hconn : st.m_connected = false)
    (hk : st.m_keepAliveInterval = 30) (hlen : 2 ≤ body.length) :
    (body.getD 1 0 % 256 = 0 →
      (handleFrame st packetType body).1.m_connected = true ∧
      (handleFrame st packetType body).2 = [Event.connectedEv] ∧
      (handleFrame st packetType body).1.timerActive = true ∧
      (handleFrame st packetType body).1.timerIntervalMs =
        st.m_keepAliveInterval * 1000 * 2 / 3 ∧
      (handleFrame st packetType body).1.timerIntervalMs = 20000) ∧
    (∀ rc : Nat, body.getD 1 0 % 256 = rc → rc ≠ 0 →
      (handleFrame st packetType body).1.m_connected = false ∧
      (handleFrame st packetType body).2 =
        [Event.errorEv ("Verbindung vom Broker abgelehnt (Code: " ++ toString rc ++ ")")]) ∧
    Char.ofNat 49 ∈ ("Verbindung vom Broker abgelehnt (Code: " ++ toString (1 : Nat) ++ ")").toList := by
  refine ⟨?_, ?_, by decide⟩
  · intro h0
    simp only [List.getD_eq_getElem?_getD] at h0
    simp [handleFrame, htype, hk, hlen, h0]
  · intro rc hrc hne
    simp only [List.getD_eq_getElem?_getD] at hrc
    simp [handleFrame, htype, hconn, hrc, hne]

/-- Witness for claim C6 at the concrete bodies [0x00, 0x00] (accepted) and
[0x00, 0x01] (refused with return code 1). -/
theorem connack_drives_connection_witness :
    (handleFrame mkMqttClient 0x20 [0x00, 0x00]).1.m_connected = true ∧
    (handleFrame mkMqttClient 0x20 [0x00, 0x00]).1.timerIntervalMs = 20000 ∧
    (handleFrame mkMqttClient 0x20 [0x00, 0x01]).2 =
      [Event.errorEv "Verbindung vom Broker abgelehnt (Code: 1)"] := by
  have h1 := connack_drives_connection mkMqttClient 0x20 [0x00, 0x00]
    (by decide) rfl rfl (by decide)
  have h2 := connack_drives_connection mkMqttClient 0x20 [0x00, 0x01]
    (by decide) rfl rfl (by decide)
  refine ⟨(h1.1 (by decide)).1, (h1.1 (by decide)).2.2.2.2, ?_⟩
  have he := (h2.2.1 1 (by decide) (by decide)).2
  rw [he]
  decide

/-- Claim C7: whenever the engine is not Connected, publish, both subscribe
overloads and unsubscribe emit the error event "Nicht verbunden!", write
nothing to the transport, and return the state completely unchanged. -/
theorem notConnected_ops_are_noops (st : MqttState) (topic message : Bytes)
    (handler qos : Nat) (retain : Bool) (h : st.m_connected = false) :
    publish st topic message qos retain = (st, [], [Event.errorEv "Nicht verbunden!"]) ∧
    subscribe st topic qos = (st, [], [Event.errorEv "Nicht verbunden!"]) ∧
    subscribeWithHandler st topic handler qos =
      (st, [], [Event.errorEv "Nicht verbunden!"]) ∧
    unsubscribe st topic = (st, [], [Event.errorEv "Nicht verbunden!"]) := by
  simp [publish, subscribe, subscribeWithHandler, unsubscribe, h]

/-- Witness for claim C7 in the freshly constructed (disconnected) state. -/
theorem notConnected_ops_are_noops_witness :
    publish mkMqttClient [0x61] [0x01] 0 false =
      (mkMqttClient, [], [Event.errorEv "Nicht verbunden!"]) ∧
    subscribeWithHandler mkMqttClient [0x61] 3 0 =
      (mkMqttClient, [], [Event.errorEv "Nicht verbunden!"]) := by
  have h := notConnected_ops_are_noops mkMqttClient [0x61] [0x01] 3 0 false rfl
  exact ⟨h.1, h.2.2.1⟩

/-- Claim C8: dispatching an inbound PUBLISH with topic T invokes the
handler registered for exactly T - synchronously, with the payload, and
without raising messageReceived - and when no handler is registered for T
(in particular after unregisterHandler(T)) it raises
messageReceived(T, payload) and invokes no handler. -/
theorem dispatch_precedence (st : MqttState) (topic payload : Bytes) :
    (∀ h : Nat, mapLookup st.m_topicHandlers topic = some h →
      handlePublishMessage st topic payload = [Event.handlerInvoked h topic payload] ∧
      Event.messageReceived topic payload ∉ handlePublishMessage st topic payload) ∧
    (mapLookup st.m_topicHandlers topic = none →
      handlePublishMessage st topic payload = [Event.messageReceived topic payload] ∧
      ∀ hid t m, Event.handlerInvoked hid t m ∉ handlePublishMessage st topic payload) ∧
    mapLookup (unregisterHandler st topic).m_topicHandlers topic = none ∧
    handlePublishMessage (unregisterHandler st topic) topic payload =
      [Event.messageReceived topic payload] := by
  have hnone : mapLookup (unregisterHandler st topic).m_topicHandlers topic = none := by
    by_cases hc : mapContains st.m_topicHandlers topic
    · simp only [unregisterHandler, hc, if_true]
      exact mapLookup_mapRemove st.m_topicHandlers topic
    · simp only [unregisterHandler, hc, if_false]
      exact mapLookup_eq_none_of_not_contains st.m_topicHandlers topic
        (by simpa using hc)
  refine ⟨?_, ?_, hnone, ?_⟩
  · intro h hl
    simp [handlePublishMessage, hl]
  · intro hl
    simp [handlePublishMessage, hl]
  · simp [handlePublishMessage, hnone]

/-- Witness for claim C8: with handler 5 registered for topic [0x74] the
handler is invoked; after unregistering, messageReceived is raised. -/
theorem dispatch_precedence_witness :
    handlePublishMessage { mkMqttClient with m_topicHandlers := [([0x74], 5)] }
      [0x74] [0x01] = [Event.handlerInvoked 5 [0x74] [0x01]] ∧
    handlePublishMessage
      (unregisterHandler { mkMqttClient with m_topicHandlers := [([0x74], 5)] } [0x74])
      [0x74] [0x01] = [Event.messageReceived [0x74] [0x01]] := by
  have h := dispatch_precedence
    { mkMqttClient with m_topicHandlers := [([0x74], 5)] } [0x74] [0x01]
  exact ⟨(h.1 5 (by decide)).1, h.2.2.2⟩

/-- Claim C9: processing a CONNACK frame whose remaining length is below 2
reads past the end of the frame body.  The raw bytes 0x20 0x01 0x00 extract
to a CONNACK frame with the one-byte body [0x00]; the success condition
fails its length guard, so the else branch runs and reads packetData.at(1) -
index 1 in a body of length 1, out of bounds - refuting the claim that the
return-code access stays within the extracted body. -/
theorem connack_short_body_out_of_bounds :
    decodeRemainingLength [0x20, 0x01, 0x00] 1 = (1, 2) ∧
    extractFirstFrame [0x20, 0x01, 0x00] = some (0x20, [0x00], []) ∧
    handleFrameReadsInBounds 0x20 [0x00] = false := by
  decide

/-- Claim C10: the packet identifier counter starts at 1, stays a 16-bit
value, is incremented exactly once per constructed SUBSCRIBE and once per
constructed UNSUBSCRIBE packet, is untouched by disconnection (intentional
or transport-triggered), by socket errors and by any received frame
(including the CONNACK of a reconnect), wraps from 65535 to 0 modulo 2^16,
and a counter value of 0 is emitted on the wire as the packet identifier
bytes 0x00 0x00. -/
theorem packetId_counter_spec (st : MqttState) (topic body : Bytes) (qos : Nat)
    (msg : String) (socketConnected : Bool) (packetType : Nat) :
    mkMqttClient.m_packetId = 1 ∧
    (createSubscribePacket st topic qos).2.m_packetId = (st.m_packetId + 1) % 65536 ∧
    (createUnsubscribePacket st topic).2.m_packetId = (st.m_packetId + 1) % 65536 ∧
    (createSubscribePacket st topic qos).2.m_packetId < 65536 ∧
    (onDisconnected st).1.m_packetId = st.m_packetId ∧
    (onSocketError st msg).1.m_packetId = st.m_packetId ∧
    (disconnect st socketConnected).1.m_packetId = st.m_packetId ∧
    (handleFrame st packetType body).1.m_packetId = st.m_packetId ∧
    (st.m_packetId = 65535 → (createSubscribePacket st topic qos).2.m_packetId = 0) ∧
    (st.m_packetId = 0 →
      (createSubscribePacket st topic qos).1 =
        0x82 :: (encodeRemainingLength (2 + (2 + (topic.length + 1))) ++
          [0, 0] ++
          ((topic.length >>> 8) % 256 :: topic.length % 256 :: (topic ++ [qos % 256])))) := by
  refine ⟨rfl, rfl, rfl, ?_, rfl, rfl, ?_, ?_, ?_, ?_⟩
  · simp [createSubscribePacket]
    omega
  · cases socketConnected <;> simp [disconnect]
  · unfold handleFrame handlePublishMessage
    repeat' first
    | rfl
    | split
    | simp only []
  · intro h
    simp [createSubscribePacket, h]
  · intro h
    simp [createSubscribePacket, h]
    congr 1
    omega

/-- Witness for claim C10: the wrap from 65535 to 0 and the concrete
SUBSCRIBE packet 0x82 0x06 0x00 0x00 0x00 0x01 a 0x00 carrying packet
identifier 0 on the wire. -/
theorem packetId_counter_spec_witness :
    (createSubscribePacket { mkMqttClient with m_packetId := 65535 } [0x61] 0).2.m_packetId = 0 ∧
    (createSubscribePacket { mkMqttClient with m_packetId := 0 } [0x61] 0).1 =
      [0x82, 0x06, 0x00, 0x00, 0x00, 0x01, 0x61, 0x00] := by
  have h1 := packetId_counter_spec { mkMqttClient with m_packetId := 65535 }
    [0x61] [] 0 "" false 0
  have h2 := packetId_counter_spec { mkMqttClient with m_packetId := 0 }
    [0x61] [] 0 "" false 0
  refine ⟨h1.2.2.2.2.2.2.2.2.1 rfl, ?_⟩
  have he := h2.2.2.2.2.2.2.2.2.2 rfl
  rw [he]
  decide

end NetworkSwitch
